import Mathlib

/-!
Verification of the LoadFlexibility measure (measures/LoadFlexibility/measure.py).

The measure applies a setpoint-offset strategy to per-building HVAC setpoint
schedules and merges a reference to the generated schedule CSV into a
multi-building HPXML document.  The file embeds:

* the offset configuration model (offset type, relative / absolute offset
  parameters, timing windows),
* the offset engine (`HVACSetpoints._get_modified_setpoints`, which lives in
  `resources/setpoint.py` and is modelled from the specification where noted),
* the CSV serialization (`get_setpoint_csv`),
* the argument mode-mismatch policy (`process_arguments`),
* the schedule-reference merge loop of `run` and the orchestration of `run`
  itself as a pipeline over an explicit environment, producing an outcome and
  a trace of file-system effects.
-/

namespace LoadFlexibility

/-- Offset mode, from `input_helper.OffsetType`: `relative` or `absolute`. -/
inductive OffsetType where
  | relative : OffsetType
  | absolute : OffsetType
deriving DecidableEq, Repr

/-- Modelled from the spec: `RelativeOffsetParameters` — named numeric deltas
(degrees) added to heating and/or cooling setpoints during an active window;
unset fields mean "no change for that axis".  The concrete dataclass lives in
`resources/input_helper.py`, which is not part of the sources here. -/
structure RelativeOffsetData where
  heating_delta : Option Int
  cooling_delta : Option Int
deriving DecidableEq, Repr

/-- Modelled from the spec: `AbsoluteOffsetParameters` — named target values
(degrees) that replace the heating and/or cooling setpoint during an active
window; unset fields mean "no override for that axis".  The concrete dataclass
lives in `resources/input_helper.py`, which is not part of the sources here. -/
structure AbsoluteOffsetData where
  heating_target : Option Int
  cooling_target : Option Int
deriving DecidableEq, Repr

/-- Modelled from the spec: a `TimingWindow` has a start time-of-day, a
duration, and an applicability predicate over the calendar day.  Times are in
schedule steps; `dayApplies` receives the day index `t / stepsPerDay`. -/
structure TimingWindow where
  start : Nat
  duration : Nat
  dayApplies : Nat → Bool

/-- Modelled from the spec: membership test of step `t` in a window —
time-of-day within `[start, start+duration)` modulo day rollover, AND the day
predicate satisfied. -/
def TimingWindow.activeAt (w : TimingWindow) (stepsPerDay t : Nat) : Bool :=
  w.dayApplies (t / stepsPerDay) &&
    ((t % stepsPerDay + stepsPerDay - w.start % stepsPerDay) % stepsPerDay < w.duration)

/-- Modelled from the spec: one named offset/timing field group — a timing
window together with the offset parameters that are applied while it is
active (the input schema allows several such groups, e.g. pre-peak and
on-peak). -/
structure WindowGroup where
  timing : TimingWindow
  relativeData : RelativeOffsetData
  absoluteData : AbsoluteOffsetData

/-- The resolved `Inputs` aggregate: offset type, the schedule resolution
(steps per day), and the configured offset/timing groups in configuration
order. -/
structure Inputs where
  upgrade_name : String
  offset_type : OffsetType
  stepsPerDay : Nat
  groups : List WindowGroup

/-- A per-building setpoint schedule: `heating_setpoints` and
`cooling_setpoints` arrays, one entry per time step (from
`resources/setpoint.py` / the generator's JSON). -/
structure HVACSetpoints where
  heating_setpoints : List Int
  cooling_setpoints : List Int
deriving DecidableEq, Repr

/-- Error taxonomy of the run (spec section 7), plus the uncaught Python
exceptions the orchestration can raise. -/
inductive MeasureError where
  | malformedSchedule : MeasureError
  | jsonDecodeError : MeasureError
  | indexError : MeasureError
deriving DecidableEq, Repr

/-- Modelled from the spec: for one axis at step `t`, the value chosen by the
active windows — the last group in configuration order that is active at `t`
and has the selected parameter set wins; groups that are inactive at `t`, or
active but with the parameter unset, do not touch the axis. -/
def lastActiveChoice (inp : Inputs) (t : Nat) (sel : WindowGroup → Option Int) : Option Int :=
  inp.groups.foldl
    (fun acc g =>
      if g.timing.activeAt inp.stepsPerDay t then
        match sel g with
        | some v => some v
        | none => acc
      else acc)
    none

/-- Modelled from the spec: the heating setpoint the engine outputs at step
`t` given input value `h` — in relative mode the chosen delta is added, in
absolute mode the chosen target replaces the value; if no active window sets
the axis the value is unchanged. -/
def modifiedHeatingAt (inp : Inputs) (t : Nat) (h : Int) : Int :=
  match inp.offset_type with
  | OffsetType.relative =>
    match lastActiveChoice inp t (fun g => g.relativeData.heating_delta) with
    | some d => h + d
    | none => h
  | OffsetType.absolute =>
    match lastActiveChoice inp t (fun g => g.absoluteData.heating_target) with
    | some v => v
    | none => h

/-- Modelled from the spec: the cooling setpoint the engine outputs at step
`t` given input value `c` (same policy as `modifiedHeatingAt` on the cooling
axis). -/
def modifiedCoolingAt (inp : Inputs) (t : Nat) (c : Int) : Int :=
  match inp.offset_type with
  | OffsetType.relative =>
    match lastActiveChoice inp t (fun g => g.relativeData.cooling_delta) with
    | some d => c + d
    | none => c
  | OffsetType.absolute =>
    match lastActiveChoice inp t (fun g => g.absoluteData.cooling_target) with
    | some v => v
    | none => c

/-- Modelled from the spec: `HVACSetpoints._get_modified_setpoints` (the
offset engine of `resources/setpoint.py`, not part of the sources here) —
applies the configuration to every step of the schedule; fails with
`MalformedScheduleError` when the heating and cooling arrays have mismatched
lengths. -/
def getModifiedSetpoints (inp : Inputs) (s : HVACSetpoints) :
    Except MeasureError HVACSetpoints :=
  if s.heating_setpoints.length ≠ s.cooling_setpoints.length then
    Except.error MeasureError.malformedSchedule
  else
    Except.ok
      { heating_setpoints := s.heating_setpoints.mapIdx (fun t h => modifiedHeatingAt inp t h)
        cooling_setpoints := s.cooling_setpoints.mapIdx (fun t c => modifiedCoolingAt inp t c) }

/-! ### Engine lemmas -/

/-- The engine accepts a schedule exactly when the two arrays have equal
length, and then produces the pointwise-modified arrays. -/
lemma getModifiedSetpoints_ok (inp : Inputs) (s : HVACSetpoints)
    (hlen : s.heating_setpoints.length = s.cooling_setpoints.length) :
    getModifiedSetpoints inp s = Except.ok
      { heating_setpoints := s.heating_setpoints.mapIdx (fun t h => modifiedHeatingAt inp t h)
        cooling_setpoints := s.cooling_setpoints.mapIdx (fun t c => modifiedCoolingAt inp t c) } := by
  simp [getModifiedSetpoints, hlen]

lemma getModifiedSetpoints_ok_elim (inp : Inputs) (s out : HVACSetpoints)
    (hout : getModifiedSetpoints inp s = Except.ok out) :
    s.heating_setpoints.length = s.cooling_setpoints.length ∧
      out.heating_setpoints = s.heating_setpoints.mapIdx (fun t h => modifiedHeatingAt inp t h) ∧
      out.cooling_setpoints = s.cooling_setpoints.mapIdx (fun t c => modifiedCoolingAt inp t c) := by
  by_cases hlen : s.heating_setpoints.length = s.cooling_setpoints.length
  · refine ⟨hlen, ?_, ?_⟩ <;>
    · rw [getModifiedSetpoints_ok inp s hlen] at hout
      cases hout
      rfl
  · simp [getModifiedSetpoints, hlen] at hout

lemma getD_mapIdx (l : List Int) (f : Nat → Int → Int) (i : Nat) (h : i < l.length) :
    (l.mapIdx f).getD i 0 = f i (l.getD i 0) := by
  have h' : i < (l.mapIdx f).length := by
    rw [List.length_mapIdx]
    exact h
  rw [List.getD_eq_getElem _ _ h', List.getD_eq_getElem _ _ h]
  exact List.get_mapIdx l f i h

/-- The modified heating value at an in-range step, read off with `getD`. -/
lemma out_heating_getD (inp : Inputs) (s out : HVACSetpoints) (t : Nat)
    (hout : getModifiedSetpoints inp s = Except.ok out)
    (ht : t < s.heating_setpoints.length) :
    out.heating_setpoints.getD t 0 = modifiedHeatingAt inp t (s.heating_setpoints.getD t 0) := by
  obtain ⟨-, hh, -⟩ := getModifiedSetpoints_ok_elim inp s out hout
  rw [hh, getD_mapIdx _ _ _ ht]

/-- The modified cooling value at an in-range step, read off with `getD`. -/
lemma out_cooling_getD (inp : Inputs) (s out : HVACSetpoints) (t : Nat)
    (hout : getModifiedSetpoints inp s = Except.ok out)
    (ht : t < s.cooling_setpoints.length) :
    out.cooling_setpoints.getD t 0 = modifiedCoolingAt inp t (s.cooling_setpoints.getD t 0) := by
  obtain ⟨-, -, hc⟩ := getModifiedSetpoints_ok_elim inp s out hout
  rw [hc, getD_mapIdx _ _ _ ht]

/-- With a single configured group that is active at `t`, the chosen value for
an axis is exactly that group's parameter for the axis. -/
lemma lastActiveChoice_singleton (inp : Inputs) (g : WindowGroup) (t : Nat)
    (sel : WindowGroup → Option Int)
    (hg : inp.groups = [g])
    (hact : g.timing.activeAt inp.stepsPerDay t = true) :
    lastActiveChoice inp t sel = sel g := by
  unfold lastActiveChoice
  rw [hg]
  simp only [List.foldl_cons, List.foldl_nil, hact, if_true]
  cases sel g <;> rfl

lemma foldl_choice_inactive (spd t : Nat) (sel : WindowGroup → Option Int)
    (gs : List WindowGroup) (acc : Option Int)
    (h : ∀ g ∈ gs, g.timing.activeAt spd t = false) :
    gs.foldl
      (fun acc g =>
        if g.timing.activeAt spd t then
          match sel g with
          | some v => some v
          | none => acc
        else acc)
      acc = acc := by
  induction gs generalizing acc with
  | nil => rfl
  | cons g gs ih =>
    have hg : g.timing.activeAt spd t = false := h g (List.mem_cons_self g gs)
    simp only [List.foldl_cons]
    rw [if_neg (by simp [hg])]
    exact ih acc (fun g' hg' => h g' (List.mem_cons_of_mem g hg'))

/-- When no configured window is active at `t`, no value is chosen for either
axis. -/
lemma lastActiveChoice_none (inp : Inputs) (t : Nat) (sel : WindowGroup → Option Int)
    (h : ∀ g ∈ inp.groups, g.timing.activeAt inp.stepsPerDay t = false) :
    lastActiveChoice inp t sel = none :=
  foldl_choice_inactive inp.stepsPerDay t sel inp.groups none h

/-- When no configured window is active at `t`, both axes pass through
unchanged. -/
lemma modified_inactive (inp : Inputs) (t : Nat)
    (h : ∀ g ∈ inp.groups, g.timing.activeAt inp.stepsPerDay t = false) :
    (∀ x : Int, modifiedHeatingAt inp t x = x) ∧ (∀ x : Int, modifiedCoolingAt inp t x = x) := by
  refine ⟨fun x => ?_, fun x => ?_⟩
  · unfold modifiedHeatingAt
    rw [lastActiveChoice_none inp t (fun g => g.relativeData.heating_delta) h,
      lastActiveChoice_none inp t (fun g => g.absoluteData.heating_target) h]
    cases inp.offset_type <;> rfl
  · unfold modifiedCoolingAt
    rw [lastActiveChoice_none inp t (fun g => g.relativeData.cooling_delta) h,
      lastActiveChoice_none inp t (fun g => g.absoluteData.cooling_target) h]
    cases inp.offset_type <;> rfl

/-- `mapIdx` of a function that fixes every in-range element is the
identity. -/
lemma mapIdx_congr_id (l : List Int) (f : Nat → Int → Int)
    (h : ∀ i, ∀ hi : i < l.length, f i (l.get ⟨i, hi⟩) = l.get ⟨i, hi⟩) :
    l.mapIdx f = l := by
  rw [List.mapIdx_eq_ofFn]
  calc (List.ofFn fun i : Fin l.length => f i (l.get i))
      = List.ofFn (l.get) := by
        congr 1
        funext i
        exact h i i.isLt
    _ = l := List.ofFn_get l

/-- `modifiedHeatingAt` in relative mode, unfolded to its heating-delta
choice. -/
lemma modifiedHeatingAt_rel (inp : Inputs) (t : Nat) (x : Int)
    (hty : inp.offset_type = OffsetType.relative) :
    modifiedHeatingAt inp t x =
      match lastActiveChoice inp t (fun g => g.relativeData.heating_delta) with
      | some d => x + d
      | none => x := by
  unfold modifiedHeatingAt
  rw [hty]

/-- `modifiedHeatingAt` in absolute mode, unfolded to its heating-target
choice. -/
lemma modifiedHeatingAt_abs (inp : Inputs) (t : Nat) (x : Int)
    (hty : inp.offset_type = OffsetType.absolute) :
    modifiedHeatingAt inp t x =
      match lastActiveChoice inp t (fun g => g.absoluteData.heating_target) with
      | some v => v
      | none => x := by
  unfold modifiedHeatingAt
  rw [hty]

/-- `modifiedCoolingAt` in relative mode, unfolded to its cooling-delta
choice. -/
lemma modifiedCoolingAt_rel (inp : Inputs) (t : Nat) (x : Int)
    (hty : inp.offset_type = OffsetType.relative) :
    modifiedCoolingAt inp t x =
      match lastActiveChoice inp t (fun g => g.relativeData.cooling_delta) with
      | some d => x + d
      | none => x := by
  unfold modifiedCoolingAt
  rw [hty]

/-- `modifiedCoolingAt` in absolute mode, unfolded to its cooling-target
choice. -/
lemma modifiedCoolingAt_abs (inp : Inputs) (t : Nat) (x : Int)
    (hty : inp.offset_type = OffsetType.absolute) :
    modifiedCoolingAt inp t x =
      match lastActiveChoice inp t (fun g => g.absoluteData.cooling_target) with
      | some v => v
      | none => x := by
  unfold modifiedCoolingAt
  rw [hty]

/-- With two configured groups both active at `t`, the chosen value for an
axis is the second group's parameter when set, the first group's otherwise. -/
lemma lastActiveChoice_pair (inp : Inputs) (g1 g2 : WindowGroup) (t : Nat)
    (sel : WindowGroup → Option Int)
    (hg : inp.groups = [g1, g2])
    (h1 : g1.timing.activeAt inp.stepsPerDay t = true)
    (h2 : g2.timing.activeAt inp.stepsPerDay t = true) :
    lastActiveChoice inp t sel =
      match sel g2 with
      | some v => some v
      | none =>
        match sel g1 with
        | some v => some v
        | none => none := by
  unfold lastActiveChoice
  rw [hg]
  simp only [List.foldl_cons, List.foldl_nil, h1, h2, if_true]

/-! ### Toy configuration (the spec's end-to-end scenario, section 8) -/

/-- A window covering steps `[1, 3)` of a 4-step day, applicable on all
days. -/
def windowSteps13 : TimingWindow :=
  { start := 1, duration := 2, dayApplies := fun _ => true }

/-- A relative-mode group adding `+2` to heating, leaving cooling unset. -/
def relGroupPlus2 : WindowGroup :=
  { timing := windowSteps13
    relativeData := { heating_delta := some 2, cooling_delta := none }
    absoluteData := { heating_target := none, cooling_target := none } }

/-- The toy inputs: relative offset, 4 steps per day, one group. -/
def toyInputs : Inputs :=
  { upgrade_name := "upgrade", offset_type := OffsetType.relative, stepsPerDay := 4
    groups := [relGroupPlus2] }

/-- The spec's 4-step toy schedule. -/
def toySchedule : HVACSetpoints :=
  { heating_setpoints := [60, 60, 60, 60], cooling_setpoints := [75, 75, 75, 75] }

/-- The expected output of the toy scenario. -/
def toyOut : HVACSetpoints :=
  { heating_setpoints := [60, 62, 62, 60], cooling_setpoints := [75, 75, 75, 75] }

/-! ### C1 -/

/-- C1: at every step inside the active timing window the Offset Engine
transforms exactly the axes whose parameter is set for the active mode — in
relative mode a set delta is added to that axis's input value, in absolute
mode a set target replaces it, and an unset axis is left unchanged. -/
theorem c1_in_window_axis_transform
    (inp : Inputs) (g : WindowGroup) (s out : HVACSetpoints) (t : Nat)
    (hg : inp.groups = [g])
    (hact : g.timing.activeAt inp.stepsPerDay t = true)
    (hth : t < s.heating_setpoints.length)
    (htc : t < s.cooling_setpoints.length)
    (hout : getModifiedSetpoints inp s = Except.ok out) :
    (inp.offset_type = OffsetType.relative →
      (∀ d, g.relativeData.heating_delta = some d →
        out.heating_setpoints.getD t 0 = s.heating_setpoints.getD t 0 + d) ∧
      (g.relativeData.heating_delta = none →
        out.heating_setpoints.getD t 0 = s.heating_setpoints.getD t 0) ∧
      (∀ d, g.relativeData.cooling_delta = some d →
        out.cooling_setpoints.getD t 0 = s.cooling_setpoints.getD t 0 + d) ∧
      (g.relativeData.cooling_delta = none →
        out.cooling_setpoints.getD t 0 = s.cooling_setpoints.getD t 0)) ∧
    (inp.offset_type = OffsetType.absolute →
      (∀ v, g.absoluteData.heating_target = some v →
        out.heating_setpoints.getD t 0 = v) ∧
      (g.absoluteData.heating_target = none →
        out.heating_setpoints.getD t 0 = s.heating_setpoints.getD t 0) ∧
      (∀ v, g.absoluteData.cooling_target = some v →
        out.cooling_setpoints.getD t 0 = v) ∧
      (g.absoluteData.cooling_target = none →
        out.cooling_setpoints.getD t 0 = s.cooling_setpoints.getD t 0)) := by
  have hh := out_heating_getD inp s out t hout hth
  have hc := out_cooling_getD inp s out t hout htc
  constructor
  · intro hty
    refine ⟨fun d hd => ?_, fun hd => ?_, fun d hd => ?_, fun hd => ?_⟩
    · rw [hh, modifiedHeatingAt_rel inp t _ hty,
        lastActiveChoice_singleton inp g t _ hg hact, hd]
    · rw [hh, modifiedHeatingAt_rel inp t _ hty,
        lastActiveChoice_singleton inp g t _ hg hact, hd]
    · rw [hc, modifiedCoolingAt_rel inp t _ hty,
        lastActiveChoice_singleton inp g t _ hg hact, hd]
    · rw [hc, modifiedCoolingAt_rel inp t _ hty,
        lastActiveChoice_singleton inp g t _ hg hact, hd]
  · intro hty
    refine ⟨fun v hv => ?_, fun hv => ?_, fun v hv => ?_, fun hv => ?_⟩
    · rw [hh, modifiedHeatingAt_abs inp t _ hty,
        lastActiveChoice_singleton inp g t _ hg hact, hv]
    · rw [hh, modifiedHeatingAt_abs inp t _ hty,
        lastActiveChoice_singleton inp g t _ hg hact, hv]
    · rw [hc, modifiedCoolingAt_abs inp t _ hty,
        lastActiveChoice_singleton inp g t _ hg hact, hv]
    · rw [hc, modifiedCoolingAt_abs inp t _ hty,
        lastActiveChoice_singleton inp g t _ hg hact, hv]

/-- C1 witness: the toy scenario at step 1 — heating gets `+2`, landing on
`62`; the unset cooling axis stays at `75`. -/
theorem c1_in_window_axis_transform_witness :
    getModifiedSetpoints toyInputs toySchedule = Except.ok toyOut ∧
    toyOut.heating_setpoints.getD 1 0 = toySchedule.heating_setpoints.getD 1 0 + 2 ∧
    toyOut.cooling_setpoints.getD 1 0 = toySchedule.cooling_setpoints.getD 1 0 := by
  have hout : getModifiedSetpoints toyInputs toySchedule = Except.ok toyOut := by rfl
  have h := c1_in_window_axis_transform toyInputs relGroupPlus2 toySchedule toyOut 1
    rfl (by decide) (by decide) (by decide) hout
  exact ⟨hout, (h.1 rfl).1 2 rfl, (h.1 rfl).2.2.2 rfl⟩

lemma HVACSetpoints.ext' (a b : HVACSetpoints)
    (h1 : a.heating_setpoints = b.heating_setpoints)
    (h2 : a.cooling_setpoints = b.cooling_setpoints) : a = b := by
  cases a
  cases b
  cases h1
  cases h2
  rfl

/-- Inputs whose configuration has no timing window at all. -/
def emptyInputs : Inputs :=
  { upgrade_name := "upgrade", offset_type := OffsetType.relative, stepsPerDay := 4
    groups := [] }

/-! ### C2 -/

/-- C2: every time step strictly outside all configured timing windows has
both setpoints copied unchanged to the output, and when no window is active
at any step the engine returns a schedule equal to its input. -/
theorem c2_outside_windows_frame
    (inp : Inputs) (s out : HVACSetpoints)
    (hout : getModifiedSetpoints inp s = Except.ok out) :
    (∀ t : Nat, (∀ g ∈ inp.groups, g.timing.activeAt inp.stepsPerDay t = false) →
      out.heating_setpoints.getD t 0 = s.heating_setpoints.getD t 0 ∧
      out.cooling_setpoints.getD t 0 = s.cooling_setpoints.getD t 0) ∧
    ((∀ t : Nat, ∀ g ∈ inp.groups, g.timing.activeAt inp.stepsPerDay t = false) →
      out = s) := by
  obtain ⟨hlen, hh, hc⟩ := getModifiedSetpoints_ok_elim inp s out hout
  constructor
  · intro t hinact
    obtain ⟨hH, hC⟩ := modified_inactive inp t hinact
    constructor
    · by_cases ht : t < s.heating_setpoints.length
      · rw [hh, getD_mapIdx _ _ _ ht, hH]
      · have h1 : s.heating_setpoints.length ≤ t := Nat.le_of_not_lt ht
        have h2 : out.heating_setpoints.length ≤ t := by
          rw [hh, List.length_mapIdx]
          exact h1
        rw [List.getD_eq_default _ _ h1, List.getD_eq_default _ _ h2]
    · by_cases ht : t < s.cooling_setpoints.length
      · rw [hc, getD_mapIdx _ _ _ ht, hC]
      · have h1 : s.cooling_setpoints.length ≤ t := Nat.le_of_not_lt ht
        have h2 : out.cooling_setpoints.length ≤ t := by
          rw [hc, List.length_mapIdx]
          exact h1
        rw [List.getD_eq_default _ _ h1, List.getD_eq_default _ _ h2]
  · intro hinact
    refine HVACSetpoints.ext' out s ?_ ?_
    · rw [hh]
      exact mapIdx_congr_id _ _ (fun i hi => (modified_inactive inp i (hinact i)).1 _)
    · rw [hc]
      exact mapIdx_congr_id _ _ (fun i hi => (modified_inactive inp i (hinact i)).2 _)

/-- C2 witness: in the toy scenario step 0 is outside the window and keeps
`60`/`75`; with no window configured at all the engine is the identity on the
toy schedule. -/
theorem c2_outside_windows_frame_witness :
    relGroupPlus2.timing.activeAt toyInputs.stepsPerDay 0 = false ∧
    toyOut.heating_setpoints.getD 0 0 = toySchedule.heating_setpoints.getD 0 0 ∧
    toyOut.cooling_setpoints.getD 0 0 = toySchedule.cooling_setpoints.getD 0 0 ∧
    getModifiedSetpoints emptyInputs toySchedule = Except.ok toySchedule := by
  have h := c2_outside_windows_frame toyInputs toySchedule toyOut (by rfl)
  have h0 := h.1 0 (by
    intro g hgmem
    have hg : g = relGroupPlus2 := by
      simpa [toyInputs] using hgmem
    rw [hg]
    decide)
  have h2 := (c2_outside_windows_frame emptyInputs toySchedule toySchedule (by rfl)).2
    (by
      intro t g hgmem
      simp [emptyInputs] at hgmem)
  exact ⟨by decide, h0.1, h0.2, by rfl⟩

/-! ### C7 -/

/-- C7: when two timing windows cover the same step, the group that appears
last in configuration order determines the output for an axis it sets; an
axis the later group leaves unset still falls to the earlier group. -/
theorem c7_last_window_wins
    (inp : Inputs) (g1 g2 : WindowGroup) (s out : HVACSetpoints) (t : Nat)
    (hg : inp.groups = [g1, g2])
    (h1 : g1.timing.activeAt inp.stepsPerDay t = true)
    (h2 : g2.timing.activeAt inp.stepsPerDay t = true)
    (hth : t < s.heating_setpoints.length)
    (htc : t < s.cooling_setpoints.length)
    (hout : getModifiedSetpoints inp s = Except.ok out) :
    (inp.offset_type = OffsetType.relative →
      (∀ d2, g2.relativeData.heating_delta = some d2 →
        out.heating_setpoints.getD t 0 = s.heating_setpoints.getD t 0 + d2) ∧
      (∀ d1, g2.relativeData.heating_delta = none →
        g1.relativeData.heating_delta = some d1 →
        out.heating_setpoints.getD t 0 = s.heating_setpoints.getD t 0 + d1) ∧
      (∀ d2, g2.relativeData.cooling_delta = some d2 →
        out.cooling_setpoints.getD t 0 = s.cooling_setpoints.getD t 0 + d2)) ∧
    (inp.offset_type = OffsetType.absolute →
      (∀ v2, g2.absoluteData.heating_target = some v2 →
        out.heating_setpoints.getD t 0 = v2) ∧
      (∀ v2, g2.absoluteData.cooling_target = some v2 →
        out.cooling_setpoints.getD t 0 = v2)) := by
  have hh := out_heating_getD inp s out t hout hth
  have hc := out_cooling_getD inp s out t hout htc
  constructor
  · intro hty
    refine ⟨fun d2 hd2 => ?_, fun d1 hd2 hd1 => ?_, fun d2 hd2 => ?_⟩
    · rw [hh, modifiedHeatingAt_rel inp t _ hty,
        lastActiveChoice_pair inp g1 g2 t _ hg h1 h2, hd2]
    · rw [hh, modifiedHeatingAt_rel inp t _ hty,
        lastActiveChoice_pair inp g1 g2 t _ hg h1 h2, hd2, hd1]
    · rw [hc, modifiedCoolingAt_rel inp t _ hty,
        lastActiveChoice_pair inp g1 g2 t _ hg h1 h2, hd2]
  · intro hty
    refine ⟨fun v2 hv2 => ?_, fun v2 hv2 => ?_⟩
    · rw [hh, modifiedHeatingAt_abs inp t _ hty,
        lastActiveChoice_pair inp g1 g2 t _ hg h1 h2, hv2]
    · rw [hc, modifiedCoolingAt_abs inp t _ hty,
        lastActiveChoice_pair inp g1 g2 t _ hg h1 h2, hv2]

/-- A second relative-mode group on the same window with different deltas:
`+5` on heating, `-1` on cooling. -/
def relGroupPlus5 : WindowGroup :=
  { timing := windowSteps13
    relativeData := { heating_delta := some 5, cooling_delta := some (-1) }
    absoluteData := { heating_target := none, cooling_target := none } }

/-- Two overlapping groups in configuration order: `+2` then `+5`. -/
def overlapInputs : Inputs :=
  { upgrade_name := "upgrade", offset_type := OffsetType.relative, stepsPerDay := 4
    groups := [relGroupPlus2, relGroupPlus5] }

/-- Expected output under the overlapping configuration: the later group's
deltas win. -/
def overlapOut : HVACSetpoints :=
  { heating_setpoints := [60, 65, 65, 60], cooling_setpoints := [75, 74, 74, 75] }

/-- C7 witness: at step 1 both windows are active; the later group's `+5`
(not the earlier `+2`) lands on heating, its `-1` on cooling. -/
theorem c7_last_window_wins_witness :
    getModifiedSetpoints overlapInputs toySchedule = Except.ok overlapOut ∧
    overlapOut.heating_setpoints.getD 1 0 = toySchedule.heating_setpoints.getD 1 0 + 5 ∧
    overlapOut.cooling_setpoints.getD 1 0 = toySchedule.cooling_setpoints.getD 1 0 + (-1) := by
  have hout : getModifiedSetpoints overlapInputs toySchedule = Except.ok overlapOut := by rfl
  have h := c7_last_window_wins overlapInputs relGroupPlus2 relGroupPlus5 toySchedule
    overlapOut 1 rfl (by decide) (by decide) (by decide) (by decide) hout
  exact ⟨hout, (h.1 rfl).1 5 rfl, (h.1 rfl).2.2 (-1) rfl⟩

/-! ### CSV serialization (`get_setpoint_csv`, measure.py lines 88-93) -/

/-- Python `sep.join(...)` semantics on a list of strings. -/
def joinWith (sep : String) : List String → String
  | [] => ""
  | [a] => a
  | a :: b :: rest => a ++ sep ++ joinWith sep (b :: rest)

/-- `get_setpoint_csv` from measure.py: the header literal, a newline, then
the newline-join of the comma-joins of the zipped heating/cooling pairs. -/
def get_setpoint_csv (heating_setpoints cooling_setpoints : List Int) : String :=
  let header := "heating_setpoint,cooling_setpoint"
  let vals := joinWith "\n"
    ((List.zip heating_setpoints cooling_setpoints).map
      (fun p => joinWith "," [toString p.1, toString p.2]))
  header ++ "\n" ++ vals

/-- The spec's CSV layout as a list of lines: the exact header
`heating_setpoint,cooling_setpoint` followed by one row per time step holding
that step's heating and cooling values in that column order, rows in schedule
order. -/
def specCsvLines (heating_setpoints cooling_setpoints : List Int) : List String :=
  "heating_setpoint,cooling_setpoint" ::
    (List.zip heating_setpoints cooling_setpoints).map
      (fun p => toString p.1 ++ "," ++ toString p.2)

lemma joinWith_cons (sep x : String) (l : List String) (hl : l ≠ []) :
    joinWith sep (x :: l) = x ++ sep ++ joinWith sep l := by
  cases l with
  | nil => exact absurd rfl hl
  | cons b rest => rfl

/-! ### C9 -/

/-- C9: for every schedule the serialized CSV is the newline-join of the
exact header row `heating_setpoint,cooling_setpoint` followed by one data row
per time step, each row `heating,cooling` for that step, rows in schedule
order. -/
theorem c9_csv_layout (heating_setpoints cooling_setpoints : List Int)
    (hlen : heating_setpoints.length = cooling_setpoints.length)
    (hne : heating_setpoints ≠ []) :
    get_setpoint_csv heating_setpoints cooling_setpoints =
      joinWith "\n" (specCsvLines heating_setpoints cooling_setpoints) ∧
    (specCsvLines heating_setpoints cooling_setpoints).length =
      heating_setpoints.length + 1 ∧
    (specCsvLines heating_setpoints cooling_setpoints).getD 0 "" =
      "heating_setpoint,cooling_setpoint" ∧
    (∀ t, t < heating_setpoints.length →
      (specCsvLines heating_setpoints cooling_setpoints).getD (t + 1) "" =
        toString (heating_setpoints.getD t 0) ++ "," ++
          toString (cooling_setpoints.getD t 0)) := by
  have hzlen : (List.zip heating_setpoints cooling_setpoints).length =
      heating_setpoints.length := by
    rw [List.length_zip, hlen, Nat.min_self]
  have hzne : (List.zip heating_setpoints cooling_setpoints).map
      (fun p : Int × Int => toString p.1 ++ "," ++ toString p.2) ≠ [] := by
    intro hcontra
    apply hne
    have hz0 : List.zip heating_setpoints cooling_setpoints = [] :=
      List.map_eq_nil_iff.mp hcontra
    have hl0 : heating_setpoints.length = 0 := by
      rw [← hzlen, hz0]
      rfl
    exact List.length_eq_zero.mp hl0
  refine ⟨?_, ?_, rfl, ?_⟩
  · unfold get_setpoint_csv specCsvLines
    rw [joinWith_cons _ _ _ hzne]
    rfl
  · unfold specCsvLines
    rw [List.length_cons, List.length_map, hzlen]
  · intro t ht
    have htz : t < (List.zip heating_setpoints cooling_setpoints).length := by
      rw [hzlen]
      exact ht
    have htm : t + 1 < (specCsvLines heating_setpoints cooling_setpoints).length := by
      unfold specCsvLines
      rw [List.length_cons, List.length_map, hzlen]
      exact Nat.succ_lt_succ ht
    rw [List.getD_eq_getElem _ _ htm]
    unfold specCsvLines
    rw [List.getElem_cons_succ, List.getElem_map, List.getElem_zip,
      List.getD_eq_getElem _ _ ht, List.getD_eq_getElem _ _ (hlen ▸ ht)]

/-- C9 witness: the toy output serializes to the header plus four rows. -/
theorem c9_csv_layout_witness :
    get_setpoint_csv toyOut.heating_setpoints toyOut.cooling_setpoints =
      joinWith "\n" (specCsvLines toyOut.heating_setpoints toyOut.cooling_setpoints) ∧
    get_setpoint_csv toyOut.heating_setpoints toyOut.cooling_setpoints =
      "heating_setpoint,cooling_setpoint\n60,75\n62,75\n62,75\n60,75" ∧
    (specCsvLines toyOut.heating_setpoints toyOut.cooling_setpoints).getD 2 "" = "62,75" := by
  have h := c9_csv_layout toyOut.heating_setpoints toyOut.cooling_setpoints (by decide)
    (by decide)
  refine ⟨h.1, by rfl, ?_⟩
  have h1 := h.2.2.2 1 (by decide)
  rw [h1]
  rfl

/-! ### Document merge (measure.py lines 147-164, with `xml_helper`) -/

/-- A building element of the HPXML document: its `BuildingID` and its
`BuildingDetails/BuildingSummary/extension` region — `none` when that nested
region does not exist yet, otherwise the text of its `SchedulesFilePath`
reference nodes in document order. -/
structure Building where
  id : String
  extension : Option (List String)
deriving DecidableEq, Repr

/-- Modelled from the spec: `HPXML.create_elements_as_needed` (in
`resources/xml_helper.py`, not among the sources here) — locates or creates
the nested extension region; creation is idempotent, re-running on an
already-extended building reuses the existing region and creates no duplicate
intermediate nodes. -/
def create_elements_as_needed (b : Building) : Building :=
  { b with extension := some (b.extension.getD []) }

/-- The scan-and-insert loop of `run` (measure.py lines 158-164): scan the
existing `SchedulesFilePath` nodes; if one's text equals the generated path,
do nothing; otherwise append a new reference node with that path as text. -/
def mergeScheduleRef (refs : List String) (path : String) : List String :=
  if refs.contains path then refs else refs ++ [path]

/-- One building's document-merge step of `run` (lines 156-164): ensure the
extension region exists, then scan-and-insert the generated path. -/
def mergeBuilding (b : Building) (path : String) : Building :=
  let b' := create_elements_as_needed b
  { b' with extension := some (mergeScheduleRef (b'.extension.getD []) path) }

lemma mergeScheduleRef_of_contains (refs : List String) (path : String)
    (h : refs.contains path = true) : mergeScheduleRef refs path = refs := by
  unfold mergeScheduleRef
  rw [if_pos h]

lemma mergeScheduleRef_of_not_contains (refs : List String) (path : String)
    (h : ¬refs.contains path = true) : mergeScheduleRef refs path = refs ++ [path] := by
  unfold mergeScheduleRef
  rw [if_neg h]

lemma contains_mergeScheduleRef (refs : List String) (path : String) :
    (mergeScheduleRef refs path).contains path = true := by
  by_cases h : refs.contains path = true
  · rw [mergeScheduleRef_of_contains refs path h]
    exact h
  · rw [mergeScheduleRef_of_not_contains refs path h]
    simp

/-! ### C3 -/

/-- C3: the document merge is idempotent per building and path — starting
from a region holding at most one reference with the generated path, after
processing the region holds exactly one such reference, and running the merge
a second time with the same path changes nothing (neither duplicate
reference nodes nor duplicate intermediate extension nodes appear). -/
theorem c3_merge_idempotent (b : Building) (path : String)
    (hone : (b.extension.getD []).count path ≤ 1) :
    ((mergeBuilding b path).extension.getD []).count path = 1 ∧
    mergeBuilding (mergeBuilding b path) path = mergeBuilding b path ∧
    create_elements_as_needed (create_elements_as_needed b) =
      create_elements_as_needed b := by
  refine ⟨?_, ?_, by rfl⟩
  · simp only [mergeBuilding, create_elements_as_needed, Option.getD_some]
    by_cases h : (b.extension.getD []).contains path = true
    · rw [mergeScheduleRef_of_contains _ _ h]
      have hmem : path ∈ b.extension.getD [] := by
        simpa using h
      have hpos : 0 < (b.extension.getD []).count path := List.count_pos_iff.mpr hmem
      omega
    · rw [mergeScheduleRef_of_not_contains _ _ h]
      have hmem : path ∉ b.extension.getD [] := by
        simpa using h
      rw [List.count_append, List.count_eq_zero.mpr hmem]
      simp
  · simp only [mergeBuilding, create_elements_as_needed, Option.getD_some]
    rw [mergeScheduleRef_of_contains _ _ (contains_mergeScheduleRef (b.extension.getD []) path)]

/-- C3 witness: a fresh building (no extension region yet) merged twice with
one path ends with the region created once and exactly one reference. -/
theorem c3_merge_idempotent_witness :
    (({ id := "bldg1", extension := none : Building }.extension.getD []).count
      "/x/hvac_setpoint_schedule_bldg1.csv" ≤ 1) ∧
    ((mergeBuilding { id := "bldg1", extension := none }
        "/x/hvac_setpoint_schedule_bldg1.csv").extension.getD []).count
      "/x/hvac_setpoint_schedule_bldg1.csv" = 1 ∧
    mergeBuilding (mergeBuilding { id := "bldg1", extension := none }
        "/x/hvac_setpoint_schedule_bldg1.csv") "/x/hvac_setpoint_schedule_bldg1.csv" =
      mergeBuilding { id := "bldg1", extension := none }
        "/x/hvac_setpoint_schedule_bldg1.csv" := by
  have h := c3_merge_idempotent { id := "bldg1", extension := none }
    "/x/hvac_setpoint_schedule_bldg1.csv" (by decide)
  exact ⟨by decide, h.1, h.2.1⟩

/-! ### Argument processing (`process_arguments`, measure.py lines 95-106) -/

/-- The runner's registered messages (OpenStudio `registerWarning` /
`registerError`); a registered error marks the measure run as failed at the
host, a warning does not. -/
structure Runner where
  warnings : List String
  errors : List String
deriving DecidableEq, Repr

/-- `runner.registerWarning`. -/
def registerWarning (r : Runner) (msg : String) : Runner :=
  { r with warnings := r.warnings ++ [msg] }

/-- `runner.registerError`. -/
def registerError (r : Runner) (msg : String) : Runner :=
  { r with errors := r.errors ++ [msg] }

/-- `process_arguments` (measure.py lines 95-106), parameterized by the
relative-only and absolute-only field-name sets (the dataclass field names of
`RelativeOffsetData` / `AbsoluteOffsetData` in `resources/input_helper.py`):
in absolute mode a non-empty intersection of the passed arguments with the
relative-only fields registers a warning, in relative mode a non-empty
intersection with the absolute-only fields registers an error; in both cases
the function then falls through to `get_input_from_dict` and returns. -/
def process_arguments (relFields absFields : List String)
    (offset_type : OffsetType) (passed_arg : List String) (r : Runner) : Runner :=
  let r1 :=
    if offset_type = OffsetType.absolute then
      let intersect_args := passed_arg.filter (fun a => relFields.contains a)
      if intersect_args ≠ [] then
        registerWarning r ("These inputs are ignored (" ++ toString intersect_args ++
          ") since offset type is absolute.")
      else r
    else r
  if offset_type = OffsetType.relative then
    let intersect_args := passed_arg.filter (fun a => absFields.contains a)
    if intersect_args ≠ [] then
      registerError r1 ("These inputs are ignored (" ++ toString intersect_args ++
        ") since offset type is relative.")
    else r1
  else r1

/-! ### C4 -/

/-- C4: the mode-mismatch policy is asymmetric — supplying relative-only
fields while the offset type is absolute registers only a (non-fatal) warning
and no error, so the run proceeds; supplying absolute-only fields while the
offset type is relative registers an error, the fatal channel. -/
theorem c4_mode_mismatch_asymmetric (relFields absFields passed_arg : List String)
    (r : Runner) :
    ((passed_arg.filter (fun a => relFields.contains a)) ≠ [] →
      (process_arguments relFields absFields OffsetType.absolute passed_arg r).errors =
        r.errors ∧
      (process_arguments relFields absFields OffsetType.absolute passed_arg r).warnings =
        r.warnings ++ ["These inputs are ignored (" ++
          toString (passed_arg.filter (fun a => relFields.contains a)) ++
          ") since offset type is absolute."]) ∧
    ((passed_arg.filter (fun a => absFields.contains a)) ≠ [] →
      (process_arguments relFields absFields OffsetType.relative passed_arg r).warnings =
        r.warnings ∧
      (process_arguments relFields absFields OffsetType.relative passed_arg r).errors =
        r.errors ++ ["These inputs are ignored (" ++
          toString (passed_arg.filter (fun a => absFields.contains a)) ++
          ") since offset type is relative."]) := by
  constructor
  · intro hne
    have hx : ∃ x ∈ passed_arg, x ∈ relFields := by
      simpa using hne
    simp [process_arguments, registerWarning, registerError, hx]
  · intro hne
    have hx : ∃ x ∈ passed_arg, x ∈ absFields := by
      simpa using hne
    simp [process_arguments, registerWarning, registerError, hx]

/-- C4 witness: with field sets `rel_f` / `abs_f` and a stray opposite-mode
argument in each direction, absolute mode yields a warning and no error while
relative mode yields an error. -/
theorem c4_mode_mismatch_asymmetric_witness :
    (["rel_f"].filter (fun a => ["rel_f"].contains a)) ≠ [] ∧
    (process_arguments ["rel_f"] ["abs_f"] OffsetType.absolute ["rel_f"]
      { warnings := [], errors := [] }).errors = [] ∧
    (["abs_f"].filter (fun a => ["abs_f"].contains a)) ≠ [] ∧
    (process_arguments ["rel_f"] ["abs_f"] OffsetType.relative ["abs_f"]
      { warnings := [], errors := [] }).warnings = [] := by
  have h := c4_mode_mismatch_asymmetric ["rel_f"] ["abs_f"] ["rel_f"]
    { warnings := [], errors := [] }
  have h2 := c4_mode_mismatch_asymmetric ["rel_f"] ["abs_f"] ["abs_f"]
    { warnings := [], errors := [] }
  exact ⟨by decide, (h.1 (by decide)).1, by decide, (h2.2 (by decide)).1⟩

/-! ### Orchestration (`run`, measure.py lines 108-167) -/

/-- A file-system effect of `run`, in order of occurrence: writing one
building's schedule CSV (lines 154-155), or persisting the HPXML document
(`hpxml.tree.write`, line 166). -/
inductive Effect where
  | csvWrite (buildingId : String) (csv : String)
  | persistDoc
deriving DecidableEq, Repr

/-- Outcome of `run`: `success` (returns True), `validationFailure` (returns
False from `validateUserArguments`, line 118), `registeredFailure`
(`registerError` followed by `return False`), or an uncaught Python
exception. -/
inductive Outcome where
  | success
  | validationFailure
  | registeredFailure (msg : String)
  | uncaughtException (e : MeasureError)
deriving DecidableEq, Repr

/-- The environment a run executes against: whether argument validation
passes, the resolved inputs, the subprocess result of
`create_setpoint_schedules.rb` (return code, captured stderr, and the result
of `json.loads` on the captured stdout — `none` when the stdout is not valid
JSON, e.g. empty), and the document's building ids in document order. -/
structure RunEnv where
  argsValid : Bool
  inputs : Inputs
  genReturncode : Int
  genStderr : String
  genParsed : Option (List HVACSetpoints)
  docBuildingIds : List String

/-- The engine pass of `run` (lines 143-145): modify every parsed schedule in
order; the first failing schedule aborts the pass with its error. -/
def transformAll (inp : Inputs) : List HVACSetpoints → Except MeasureError (List HVACSetpoints)
  | [] => Except.ok []
  | s :: rest =>
    match getModifiedSetpoints inp s with
    | Except.error e => Except.error e
    | Except.ok s' =>
      match transformAll inp rest with
      | Except.error e => Except.error e
      | Except.ok rest' => Except.ok (s' :: rest')

/-- The per-building loop of `run` (lines 149-164): for the building at
index `idx`, look up `new_setpoints[idx]` (an uncaught `IndexError` when the
document has more buildings than produced schedules, line 153), then write
that building's CSV; the merge mutates only the in-memory document, so it
contributes no file-system effect. -/
def writeLoop (news : List HVACSetpoints) :
    List String → Nat → List Effect → Option MeasureError × List Effect
  | [], _, acc => (none, acc)
  | bid :: rest, idx, acc =>
    match news[idx]? with
    | none => (some MeasureError.indexError, acc)
    | some nd =>
      writeLoop news rest (idx + 1)
        (acc ++ [Effect.csvWrite bid
          (get_setpoint_csv nd.heating_setpoints nd.cooling_setpoints)])

/-- `run` (measure.py lines 108-167) as a pipeline over a `RunEnv`, returning
the outcome and the ordered trace of file-system effects: argument
validation (line 117); the generator subprocess, whose captured stdout is fed
to `json.loads` (line 137) before its return code is checked (line 139); the
offset-engine pass (lines 143-145); the per-building CSV/merge loop (lines
149-164); and finally the single document persist (line 166). -/
def runMeasure (env : RunEnv) : Outcome × List Effect :=
  if env.argsValid = false then (Outcome.validationFailure, [])
  else
    match env.genParsed with
    | none => (Outcome.uncaughtException MeasureError.jsonDecodeError, [])
    | some schedules =>
      if env.genReturncode ≠ 0 then
        (Outcome.registeredFailure
          ("Failed to run create_setpoint_schedules.rb : " ++ env.genStderr), [])
      else
        match transformAll env.inputs schedules with
        | Except.error e => (Outcome.uncaughtException e, [])
        | Except.ok news =>
          match writeLoop news env.docBuildingIds 0 [] with
          | (some e, effects) => (Outcome.uncaughtException e, effects)
          | (none, effects) => (Outcome.success, effects ++ [Effect.persistDoc])

/-- The CSV-write effect for one building id and schedule. -/
def csvEffect (bid : String) (nd : HVACSetpoints) : Effect :=
  Effect.csvWrite bid (get_setpoint_csv nd.heating_setpoints nd.cooling_setpoints)

/-- Closed form of the per-building loop: it emits one CSV effect per
building while schedules remain, and reports an index error exactly when the
buildings outnumber the remaining schedules. -/
lemma writeLoop_eq (news : List HVACSetpoints) (ids : List String) :
    ∀ (idx : Nat) (acc : List Effect), idx ≤ news.length →
    writeLoop news ids idx acc =
      ((if idx + ids.length ≤ news.length then none else some MeasureError.indexError),
        acc ++ List.zipWith csvEffect ids (news.drop idx)) := by
  induction ids with
  | nil =>
    intro idx acc h
    simp [writeLoop, Nat.add_zero, h]
  | cons bid rest ih =>
    intro idx acc h
    by_cases hidx : idx < news.length
    · have hsome : news[idx]? = some news[idx] := List.getElem?_eq_getElem hidx
      have hdrop : news.drop idx = news[idx] :: news.drop (idx + 1) :=
        List.drop_eq_getElem_cons hidx
      unfold writeLoop
      simp only [hsome]
      rw [ih (idx + 1) _ (by omega), hdrop]
      simp only [List.zipWith_cons_cons, List.length_cons]
      congr 1
      · rw [show idx + 1 + rest.length = idx + (rest.length + 1) from by omega]
      · rw [List.append_assoc]
        rfl
    · have hlen : news.length ≤ idx := Nat.le_of_not_lt hidx
      have hnone : news[idx]? = none := List.getElem?_eq_none hlen
      have hdrop : news.drop idx = [] := List.drop_eq_nil_of_le hlen
      unfold writeLoop
      simp only [hnone, hdrop]
      simp only [List.zipWith_nil_right, List.append_nil, List.length_cons]
      rw [if_neg (by omega)]

lemma persist_not_mem_zipWith (ids : List String) (news : List HVACSetpoints) :
    Effect.persistDoc ∉ List.zipWith csvEffect ids news := by
  induction ids generalizing news with
  | nil => simp
  | cons bid rest ih =>
    cases news with
    | nil => simp
    | cons nd ns =>
      simp only [List.zipWith_cons_cons, List.mem_cons]
      rintro (hcontra | hcontra)
      · exact absurd hcontra (by simp [csvEffect])
      · exact ih ns hcontra

/-! ### C8 -/

/-- C8: the document is persisted exactly once, as the final effect of a
successful run; every run that fails at any point performs no document
persist at all (though it may already have written CSV files). -/
theorem c8_single_final_persist (env : RunEnv) :
    ((runMeasure env).1 ≠ Outcome.success → Effect.persistDoc ∉ (runMeasure env).2) ∧
    ((runMeasure env).1 = Outcome.success →
      (runMeasure env).2.count Effect.persistDoc = 1 ∧
      (runMeasure env).2.getLast? = some Effect.persistDoc) := by
  by_cases hv : env.argsValid = false
  · simp [runMeasure, hv]
  · cases hp : env.genParsed with
    | none => simp [runMeasure, hv, hp]
    | some schedules =>
      by_cases hr : env.genReturncode = 0
      · cases htr : transformAll env.inputs schedules with
        | error e => simp [runMeasure, hv, hp, hr, htr]
        | ok news =>
          have hloop := writeLoop_eq news env.docBuildingIds 0 [] (Nat.zero_le _)
          simp only [Nat.zero_add, List.drop_zero, List.nil_append] at hloop
          have hnot := persist_not_mem_zipWith env.docBuildingIds news
          have hcount0 : (List.zipWith csvEffect env.docBuildingIds news).count
              Effect.persistDoc = 0 := List.count_eq_zero.mpr hnot
          by_cases hfit : env.docBuildingIds.length ≤ news.length
          · rw [if_pos hfit] at hloop
            simp only [runMeasure, hv, hp, hr, htr, hloop]
            simp [List.count_append, hcount0, List.getLast?_concat]
          · rw [if_neg hfit] at hloop
            simp only [runMeasure, hv, hp, hr, htr, hloop]
            simp [hnot]
      · simp [runMeasure, hv, hp, hr]

/-- The environment of a run whose document has two buildings but whose
generator produced a single one-step schedule. -/
def c8Env : RunEnv :=
  { argsValid := true, inputs := emptyInputs, genReturncode := 0, genStderr := ""
    genParsed := some [{ heating_setpoints := [60], cooling_setpoints := [75] }]
    docBuildingIds := ["b1", "b2"] }

/-- C8 witness: a run that fails mid-loop has already written the first
building's CSV but has not persisted the document. -/
theorem c8_single_final_persist_witness :
    (runMeasure c8Env).1 = Outcome.uncaughtException MeasureError.indexError ∧
    (runMeasure c8Env).2 = [Effect.csvWrite "b1" (get_setpoint_csv [60] [75])] ∧
    Effect.persistDoc ∉ (runMeasure c8Env).2 :=
  ⟨by decide, by decide, (c8_single_final_persist c8Env).1 (by decide)⟩

/-! ### C10 -/

/-- C10: schedules are matched to buildings purely by position — the i-th
building id in document order receives the CSV of the i-th produced schedule;
when the document has more buildings than schedules the run ends in an
uncaught index error (not a registered failure), after writing exactly the
CSVs of the schedules that existed. -/
theorem c10_positional_matching (env : RunEnv) (schedules news : List HVACSetpoints)
    (hv : env.argsValid = true)
    (hp : env.genParsed = some schedules)
    (hr : env.genReturncode = 0)
    (ht : transformAll env.inputs schedules = Except.ok news) :
    (news.length < env.docBuildingIds.length →
      runMeasure env = (Outcome.uncaughtException MeasureError.indexError,
        List.zipWith csvEffect env.docBuildingIds news)) ∧
    (∀ i : Nat, ∀ hi1 : i < env.docBuildingIds.length, ∀ hi2 : i < news.length,
      (runMeasure env).2[i]? = some (csvEffect env.docBuildingIds[i] news[i])) := by
  have hloop := writeLoop_eq news env.docBuildingIds 0 [] (Nat.zero_le _)
  simp only [Nat.zero_add, List.drop_zero, List.nil_append] at hloop
  have hzlen : (List.zipWith csvEffect env.docBuildingIds news).length =
      min env.docBuildingIds.length news.length := List.length_zipWith _ _ _
  constructor
  · intro hlt
    rw [if_neg (by omega)] at hloop
    simp only [runMeasure, hv, hp, hr, ht, hloop]
    simp
  · intro i hi1 hi2
    have hiz : i < (List.zipWith csvEffect env.docBuildingIds news).length := by
      omega
    have hzget : (List.zipWith csvEffect env.docBuildingIds news)[i]? =
        some (csvEffect env.docBuildingIds[i] news[i]) := by
      rw [List.getElem?_eq_getElem hiz]
      rw [List.getElem_zipWith]
    by_cases hfit : env.docBuildingIds.length ≤ news.length
    · rw [if_pos hfit] at hloop
      have h2 : (runMeasure env).2 =
          List.zipWith csvEffect env.docBuildingIds news ++ [Effect.persistDoc] := by
        simp [runMeasure, hv, hp, hr, ht, hloop]
      rw [h2, List.getElem?_append_left hiz]
      exact hzget
    · rw [if_neg hfit] at hloop
      have h2 : (runMeasure env).2 = List.zipWith csvEffect env.docBuildingIds news := by
        simp [runMeasure, hv, hp, hr, ht, hloop]
      rw [h2]
      exact hzget

/-- C10 witness: in the two-building one-schedule environment the run raises
the index error after pairing building `b1` with schedule 0. -/
theorem c10_positional_matching_witness :
    runMeasure c8Env = (Outcome.uncaughtException MeasureError.indexError,
      List.zipWith csvEffect ["b1", "b2"]
        [{ heating_setpoints := [60], cooling_setpoints := [75] }]) ∧
    (runMeasure c8Env).2[0]? =
      some (csvEffect "b1" { heating_setpoints := [60], cooling_setpoints := [75] }) := by
  have h := c10_positional_matching c8Env
    [{ heating_setpoints := [60], cooling_setpoints := [75] }]
    [{ heating_setpoints := [60], cooling_setpoints := [75] }]
    rfl rfl rfl (by rfl)
  exact ⟨h.1 (by decide), h.2 0 (by decide) (by decide)⟩

/-! ### C5 -/

/-- The environment of a run whose generator exits non-zero with an empty,
unparsable stdout. -/
def c5Env : RunEnv :=
  { argsValid := true, inputs := emptyInputs, genReturncode := 1
    genStderr := "ruby failed", genParsed := none, docBuildingIds := ["b1"] }

/-- The same failing generator but with (vacuously) parsable stdout. -/
def c5EnvParsable : RunEnv :=
  { argsValid := true, inputs := emptyInputs, genReturncode := 1
    genStderr := "ruby failed", genParsed := some [], docBuildingIds := ["b1"] }

/-- C5, at the failing input: `run` feeds the generator's stdout to
`json.loads` (line 137) before checking the return code (line 139), so a
non-zero exit with unparsable stdout dies in an uncaught JSON-decode
exception and the captured stderr is never surfaced; only when the stdout
happens to parse does the run register the failure with the captured stderr.
In both cases no offset transformation output is written. -/
theorem c5_exit_code_checked_after_parse :
    runMeasure c5Env = (Outcome.uncaughtException MeasureError.jsonDecodeError, []) ∧
    (runMeasure c5Env).1 ≠ Outcome.registeredFailure
      ("Failed to run create_setpoint_schedules.rb : " ++ c5Env.genStderr) ∧
    runMeasure c5EnvParsable = (Outcome.registeredFailure
      ("Failed to run create_setpoint_schedules.rb : ruby failed"), []) :=
  ⟨by decide, by decide, by decide⟩

/-! ### C6 -/

lemma getModifiedSetpoints_error_elim (inp : Inputs) (s : HVACSetpoints) (e : MeasureError)
    (h : getModifiedSetpoints inp s = Except.error e) : e = MeasureError.malformedSchedule := by
  by_cases hlen : s.heating_setpoints.length = s.cooling_setpoints.length
  · rw [getModifiedSetpoints_ok inp s hlen] at h
    cases h
  · simp only [getModifiedSetpoints, if_pos hlen] at h
    cases h
    rfl

lemma transformAll_error_of_mem (inp : Inputs) (s : HVACSetpoints)
    (hmis : s.heating_setpoints.length ≠ s.cooling_setpoints.length) :
    ∀ ss : List HVACSetpoints, s ∈ ss →
      transformAll inp ss = Except.error MeasureError.malformedSchedule := by
  intro ss
  induction ss with
  | nil => intro hs; cases hs
  | cons a rest ih =>
    intro hs
    cases ha : getModifiedSetpoints inp a with
    | error e =>
      have he := getModifiedSetpoints_error_elim inp a e ha
      subst he
      unfold transformAll
      simp only [ha]
    | ok a' =>
      have hsr : s ∈ rest := by
        rcases List.mem_cons.mp hs with h1 | h2
        · exfalso
          subst h1
          rw [getModifiedSetpoints, if_pos hmis] at ha
          cases ha
        · exact h2
      have hrest := ih hsr
      unfold transformAll
      simp only [ha, hrest]

/-- C6: a baseline schedule whose heating and cooling arrays have different
lengths makes the engine fail with the malformed-schedule error, makes the
whole engine pass fail, and makes the run end in that uncaught error with no
CSV written for any building (and no document persist). -/
theorem c6_mismatched_lengths_fail (inp : Inputs) (s : HVACSetpoints)
    (hmis : s.heating_setpoints.length ≠ s.cooling_setpoints.length) :
    getModifiedSetpoints inp s = Except.error MeasureError.malformedSchedule ∧
    (∀ ss : List HVACSetpoints, s ∈ ss →
      transformAll inp ss = Except.error MeasureError.malformedSchedule) ∧
    (∀ env : RunEnv, ∀ ss : List HVACSetpoints, env.argsValid = true →
      env.genParsed = some ss → env.genReturncode = 0 → env.inputs = inp → s ∈ ss →
      runMeasure env = (Outcome.uncaughtException MeasureError.malformedSchedule, [])) := by
  refine ⟨by rw [getModifiedSetpoints, if_pos hmis], transformAll_error_of_mem inp s hmis, ?_⟩
  intro env ss hv hp hr hinp hs
  have htr : transformAll env.inputs ss = Except.error MeasureError.malformedSchedule := by
    rw [hinp]
    exact transformAll_error_of_mem inp s hmis ss hs
  simp [runMeasure, hv, hp, hr, htr]

/-- The environment of a run whose generator produced one schedule with
mismatched array lengths. -/
def c6Env : RunEnv :=
  { argsValid := true, inputs := emptyInputs, genReturncode := 0, genStderr := ""
    genParsed := some [{ heating_setpoints := [60, 60], cooling_setpoints := [75] }]
    docBuildingIds := ["b1"] }

/-- C6 witness: a two-long heating array against a one-long cooling array
fails the engine and the run, with an empty effect trace. -/
theorem c6_mismatched_lengths_fail_witness :
    getModifiedSetpoints emptyInputs
      { heating_setpoints := [60, 60], cooling_setpoints := [75] } =
      Except.error MeasureError.malformedSchedule ∧
    runMeasure c6Env = (Outcome.uncaughtException MeasureError.malformedSchedule, []) := by
  have h := c6_mismatched_lengths_fail emptyInputs
    { heating_setpoints := [60, 60], cooling_setpoints := [75] } (by decide)
  exact ⟨h.1, h.2.2 c6Env _ rfl rfl rfl rfl (by decide)⟩

end LoadFlexibility
